import Mathlib

/-
Verification of the Mermaid_2_PNG repository (mermaid_to_png.py, web_app.py)
against its natural-language specification.

Python strings are modelled as lists of characters (`PyStr`), machine
integers as `Int`/`Nat`, and the outcomes of external effects (subprocess
runs, the PIL imaging library, the filesystem) as explicit environment
values passed to each embedded function.  Every embedded definition is a
line-by-line translation of the corresponding Python function; line numbers
in comments refer to src/mermaid_to_png.py unless stated otherwise.
-/

namespace MermaidToPng

/-- Python strings are modelled as lists of characters. -/
abbrev PyStr := List Char

/-- Python `s.split('\n')`: split on every newline, keeping empty pieces;
the result is always non-empty (splitting the empty string yields one
empty piece). -/
def split_nl : PyStr → List PyStr
  | [] => [[]]
  | c :: cs =>
    if c = '\n' then [] :: split_nl cs
    else
      match split_nl cs with
      | [] => [[c]]
      | l :: ls => (c :: l) :: ls

/-- The characters Python `str.strip()` removes. -/
def isPySpace (c : Char) : Bool :=
  c = ' ' || c = '\t' || c = '\n' || c = '\r' || c = '\x0b' || c = '\x0c'

/-- Python `s.strip()`: drop leading and trailing whitespace. -/
def pyStrip (s : PyStr) : PyStr :=
  ((s.dropWhile isPySpace).reverse.dropWhile isPySpace).reverse

/-- One `draw.text((x, y), text, ...)` call of `_create_demo_image`. -/
structure TextDraw where
  x : Int
  y : Int
  text : PyStr
deriving DecidableEq

/-- Lines 387-392: `lines = mermaid_code.split('\n')[:5]`, then for each
indexed line, if `line.strip()` is truthy, draw `line[:50]` at
`(100, 450 + 20 + i*15)`. -/
def code_snippet_draws (mermaid_code : PyStr) : List TextDraw :=
  (((split_nl mermaid_code).take 5).enum).filterMap fun p =>
    if !(pyStrip p.2).isEmpty then
      some { x := 100, y := 450 + 20 + (p.1 : Int) * 15, text := p.2.take 50 }
    else none

/-- All `draw.text` calls of `_create_demo_image` (lines 358-395), in
program order: title, mode banner, three box labels, the code-snippet
header, the code-snippet lines, and the closing note.  The canvas width is
800, so `width//2` is 400. -/
def demo_text_draws (mermaid_code : PyStr) : List TextDraw :=
  [ { x := 400 - 100, y := 80, text := "Mermaid Diagram".toList },
    { x := 400 - 80, y := 110, text := "(Demo Mode)".toList },
    { x := 225 - 30, y := 220, text := "Start".toList },
    { x := 475 - 30, y := 220, text := "Process".toList },
    { x := 475 - 20, y := 370, text := "End".toList },
    { x := 100, y := 450, text := "Original Mermaid Code:".toList } ]
  ++ code_snippet_draws mermaid_code
  ++ [ { x := 100, y := 550,
         text := "Note: Install Mermaid CLI for actual conversion".toList } ]

/-- Outcome of the local imaging library for one `_create_demo_image` call:
`unavailable` means `from PIL import ...` raises ImportError (lines
337-339); `raises` means some drawing or saving operation inside the second
`try` block raises (lines 401-403), for example `img.save` on an output
path whose directory does not exist; `ok` means all drawing and saving
succeeds. -/
inductive PilEnv
  | unavailable
  | raises
  | ok
deriving DecidableEq

/-- The placeholder image written by `_create_demo_image` on success: the
output path it is saved to and the text draws it contains. -/
structure DemoImage where
  path : PyStr
  draws : List TextDraw
deriving DecidableEq

/-- Lines 332-403, `MermaidConverter._create_demo_image`: returns False if
the PIL import fails (lines 337-339) or any drawing or saving operation
raises (lines 401-403); otherwise draws the fixed demo layout with the
code snippet, saves it to `output_path` (line 398) and returns True.  The
second component is the image written, `none` when no image is saved. -/
def _create_demo_image (pil : PilEnv) (mermaid_code output_path : PyStr) :
    Bool × Option DemoImage :=
  match pil with
  | .unavailable => (false, none)
  | .raises => (false, none)
  | .ok => (true, some { path := output_path, draws := demo_text_draws mermaid_code })

/-- The reading of C3 as the spec states it: the first (up to) five
non-empty lines of the whole input, each truncated to 50 characters. -/
def spec_first_nonempty_lines (code : PyStr) : List PyStr :=
  (((split_nl code).filter fun l => !(pyStrip l).isEmpty).take 5).map fun l => l.take 50

/-- The texts of the code-snippet draw calls of the placeholder image. -/
def drawn_code_lines (code : PyStr) : List PyStr :=
  (code_snippet_draws code).map TextDraw.text

/-- The six entries of `possible_paths` (lines 46-56), in order: the three
local node_modules binaries, the direct node invocation of cli.js, the
global `mmdc` command, and the npx package-runner invocation. -/
inductive Candidate
  | local_cmd
  | local_bin
  | local_ps1
  | node_cli
  | global_mmdc
  | npx_pkg
deriving DecidableEq

/-- Line-46 list order of the candidates probed by `_find_mermaid_cli`. -/
def possible_paths : List Candidate :=
  [.local_cmd, .local_bin, .local_ps1, .node_cli, .global_mmdc, .npx_pkg]

/-- Outcome of one `subprocess.run` probe in `_find_mermaid_cli`:
`completes rc_zero stdout_ok` means the process finished, with
`rc_zero` = (returncode == 0) and `stdout_ok` the stdout condition the code
tests (non-empty stdout for a version query at line 111; stdout containing
the package name for `npm list` at line 92); `raises` means the call raised
(TimeoutExpired, FileNotFoundError or any other exception, caught at line
125 and treated as `continue`). -/
inductive RunOutcome
  | completes (rc_zero : Bool) (stdout_ok : Bool)
  | raises
deriving DecidableEq

/-- Outcome of the trial `subprocess.run` inside
`_test_mermaid_cli_with_conversion` (line 428): `completes rc_zero
creates_output` means the run finished with the given returncode verdict,
having written the temporary output file or not; `raises` means the call
raised (for example TimeoutExpired), landing in the handler at line 453. -/
inductive TestRun
  | completes (rc_zero : Bool) (creates_output : Bool)
  | raises
deriving DecidableEq

/-- Existence, after the probe returns, of the two temporary files the
probe creates for the trial conversion. -/
structure TempFiles where
  input_exists : Bool
  output_exists : Bool
deriving DecidableEq

/-- Lines 405-455, `MermaidConverter._test_mermaid_cli_with_conversion`:
writes the trivial diagram `"graph TD; A-->B"` to a temporary .mmd file
(lines 416-418), runs the candidate on it (line 428), then unlinks the
temporary input and, if present, the temporary output (lines 438-444), and
returns (returncode == 0) (line 447).  The cleanup block is ordinary
straight-line code, not a `finally`: when the run raises, control jumps
directly to the handler at line 453 and returns False with the temporary
input file still on disk.  Returns the verdict together with the state of
the temporary files at return. -/
def _test_mermaid_cli_with_conversion (run : TestRun) : Bool × TempFiles :=
  match run with
  | .raises =>
      (false, { input_exists := true, output_exists := false })
  | .completes rc_zero _ =>
      (rc_zero, { input_exists := false, output_exists := false })

/-- The environment of one discovery probe for one candidate:
`js_file_exists` is the line-66 existence check (consulted only for the
node invocation); `version` is the version-query run (lines 70 and 101);
`npm_list` is the `npm list` run (line 83, consulted only for npx, with
`stdout_ok` meaning the output contains the package name); `conv_run` is
the outcome of the trial conversion run inside
`_test_mermaid_cli_with_conversion`. -/
structure CandEnv where
  js_file_exists : Bool
  version : RunOutcome
  npm_list : RunOutcome
  conv_run : TestRun
deriving DecidableEq

/-- The version-then-conversion check shared by the node invocation and
the direct commands (lines 70-78 and 100-109, then 111-119): the version
query must complete with returncode 0 and non-empty stdout, and then the
trial conversion of `_test_mermaid_cli_with_conversion` must report
success; an exception during the version query lands in the handler at
line 125 and means continue. -/
def direct_probe (e : CandEnv) : Bool :=
  match e.version with
  | .raises => false
  | .completes rc out =>
      if rc && out then (_test_mermaid_cli_with_conversion e.conv_run).1
      else false

/-- One iteration of the discovery loop (lines 58-127), continued: the
per-candidate dispatch.  The node invocation first requires cli.js to
exist (lines 66-68) and then runs the shared version-then-conversion
check; npx runs only the `npm list` check; every other candidate runs the
shared check directly. -/
def probe_step (c : Candidate) (e : CandEnv) : Bool :=
  match c with
  | .node_cli => if !e.js_file_exists then false else direct_probe e
  | .npx_pkg =>
      match e.npm_list with
      | .raises => false
      | .completes _ has_pkg => has_pkg
  | _ => direct_probe e

/-- The `for path in possible_paths` loop of `_find_mermaid_cli`: return
the first candidate whose probe accepts, or None when the list is
exhausted (line 129). -/
def find_aux (envs : Candidate → CandEnv) : List Candidate → Option Candidate
  | [] => none
  | c :: rest => if probe_step c (envs c) then some c else find_aux envs rest

/-- Lines 41-129, `MermaidConverter._find_mermaid_cli`, as a function of
the per-candidate probe environments. -/
def _find_mermaid_cli (envs : Candidate → CandEnv) : Option Candidate :=
  find_aux envs possible_paths

/-- The two instance fields of `MermaidConverter` (lines 34-36). -/
structure MermaidConverter where
  mermaid_cli : Option Candidate
  demo_mode : Bool
deriving DecidableEq

/-- Observable calls made by the embedded methods, recorded in order:
`discover` is a run of `_find_mermaid_cli`, `helpRun` the `--help` probe
of `_check_dependencies` (line 142), `cliRun` the external conversion
attempt of `convert_mermaid_text` (line 217), and `demoRender` a call to
`_create_demo_image` with its source text and output path. -/
inductive Event
  | discover
  | helpRun
  | cliRun (output_path : PyStr)
  | demoRender (code : PyStr) (output_path : PyStr)
deriving DecidableEq

/-- Lines 34-39, `MermaidConverter.__init__`: discovery runs once, its
result is stored in `mermaid_cli`, and `demo_mode` is set iff it returned
None.  The event list records the single discovery run. -/
def MermaidConverter.init (envs : Candidate → CandEnv) :
    MermaidConverter × List Event :=
  let cli := _find_mermaid_cli envs
  ({ mermaid_cli := cli, demo_mode := cli.isNone }, [.discover])

/-- Outcome of the `--help` run in `_check_dependencies` (line 142):
it either completes (with the given returncode verdict) or raises
TimeoutExpired (caught at line 154). -/
inductive HelpOutcome
  | completes (rc_zero : Bool)
  | timeout
deriving DecidableEq

/-- Lines 131-159, `MermaidConverter._check_dependencies`: False when no
CLI was found (lines 133-138); otherwise run `--help` and report False on
non-zero exit (lines 151-153) or timeout (lines 154-156), True otherwise.
Returns the verdict, the converter state after the call (the method
assigns no instance field, so it is the input state), and the events. -/
def _check_dependencies (c : MermaidConverter) (help : HelpOutcome) :
    Bool × MermaidConverter × List Event :=
  match c.mermaid_cli with
  | none => (false, c, [])
  | some _ =>
      match help with
      | .timeout => (false, c, [.helpRun])
      | .completes rc_zero => (rc_zero, c, [.helpRun])

/-- Outcome of the real conversion run in `convert_mermaid_text` (line
217): completes with a returncode verdict and with the output file either
produced or not, raises TimeoutExpired (line 241), or raises some other
exception (line 244). -/
inductive CliRun
  | completes (rc_zero : Bool) (output_exists : Bool)
  | timeout
  | raises
deriving DecidableEq

/-- The environment of one `convert_mermaid_text` call: the `--help` probe
outcome (consulted only when `_check_dependencies` is reached), the real
conversion run outcome (consulted only when the external tool is invoked)
and the imaging-library outcome (consulted only when
`_create_demo_image` is invoked). -/
structure ConvEnv where
  help : HelpOutcome
  run : CliRun
  pil : PilEnv
deriving DecidableEq

/-- The result of one embedded conversion call: the boolean the Python
function returns, the converter state after the call, the recorded events,
and the paths of the image files written during the call. -/
structure ConvResult where
  ok : Bool
  conv : MermaidConverter
  events : List Event
  written : List PyStr
deriving DecidableEq

/-- Lines 161-256, `MermaidConverter.convert_mermaid_text`.
In demo mode (lines 174-176) it immediately delegates to
`_create_demo_image`.  When `_check_dependencies` fails (lines 178-180) it
likewise delegates.  Otherwise it writes the source to a temporary file
(line 183, assumed to succeed; the file is removed again in the `finally`
block at lines 248-256 and is not tracked here), runs the external tool
(line 217) and returns True only when the returncode is zero AND the
output file exists (line 227); on a failed run (lines 230-239), a timeout
(lines 241-243) or any other exception (lines 244-247) it delegates to
`_create_demo_image` on the same source text and output path and returns
that result.  Every exception raised by the run is caught; the function
never propagates one (totality of this definition).  `written` records the
output path when the external run produced the output file and when the
placeholder renderer saved its image. -/
def convert_mermaid_text (c : MermaidConverter) (env : ConvEnv)
    (mermaid_code output_path : PyStr) : ConvResult :=
  if c.demo_mode then
    { ok := (_create_demo_image env.pil mermaid_code output_path).1
      conv := c
      events := [.demoRender mermaid_code output_path]
      written := if env.pil = .ok then [output_path] else [] }
  else if !(_check_dependencies c env.help).1 then
    { ok := (_create_demo_image env.pil mermaid_code output_path).1
      conv := c
      events := (_check_dependencies c env.help).2.2
        ++ [.demoRender mermaid_code output_path]
      written := if env.pil = .ok then [output_path] else [] }
  else
    match env.run with
    | .completes rc_zero output_exists =>
        if rc_zero && output_exists then
          { ok := true
            conv := c
            events := (_check_dependencies c env.help).2.2 ++ [.cliRun output_path]
            written := [output_path] }
        else
          { ok := (_create_demo_image env.pil mermaid_code output_path).1
            conv := c
            events := (_check_dependencies c env.help).2.2
              ++ [.cliRun output_path, .demoRender mermaid_code output_path]
            written := (if output_exists then [output_path] else [])
              ++ (if env.pil = .ok then [output_path] else []) }
    | .timeout =>
        { ok := (_create_demo_image env.pil mermaid_code output_path).1
          conv := c
          events := (_check_dependencies c env.help).2.2
            ++ [.cliRun output_path, .demoRender mermaid_code output_path]
          written := if env.pil = .ok then [output_path] else [] }
    | .raises =>
        { ok := (_create_demo_image env.pil mermaid_code output_path).1
          conv := c
          events := (_check_dependencies c env.help).2.2
            ++ [.cliRun output_path, .demoRender mermaid_code output_path]
          written := if env.pil = .ok then [output_path] else [] }

/-- The condition under which `convert_mermaid_text` does not obtain a
successful external conversion: demo mode, failed dependency check, or a
run that is anything other than a completion with returncode zero and the
output file present. -/
def external_failure (c : MermaidConverter) (env : ConvEnv) : Bool :=
  c.demo_mode || !(_check_dependencies c env.help).1 ||
    !(match env.run with
      | .completes rc_zero output_exists => rc_zero && output_exists
      | _ => false)

/-- The state of the input file named in a `convert_file` call: it does
not exist (line 272), it exists but reading it raises (line 285), or it
exists with the given contents. -/
inductive InputFile
  | absent
  | unreadable
  | contents (s : PyStr)
deriving DecidableEq

/-- Lines 258-287, `MermaidConverter.convert_file`: when the input path
does not exist, print and return False at once (lines 272-274) — nothing
else runs, so no events and no writes; when reading raises, the handler at
lines 285-287 returns False; otherwise delegate to `convert_mermaid_text`
on the file contents.  The caller supplies the output path explicitly
(batch mode always does; the line 276 default is applied by `main_with`
below for the single-file mode). -/
def convert_file (c : MermaidConverter) (env : ConvEnv)
    (input : InputFile) (output_path : PyStr) : ConvResult :=
  match input with
  | .absent => { ok := false, conv := c, events := [], written := [] }
  | .unreadable => { ok := false, conv := c, events := [], written := [] }
  | .contents s => convert_mermaid_text c env s output_path

/-- One file enumerated by the `*.mmd` glob at line 313: since every
matched name ends in `.mmd`, the name is `stem ++ ".mmd"` and the stem
determines it. -/
structure MmdFile where
  stem : PyStr
  content : PyStr
deriving DecidableEq

/-- Line 325: the output path `output_path / (stem + ".png")` chosen for
one batch item. -/
def png_path (out_dir stem : PyStr) : PyStr :=
  out_dir ++ [ '/' ] ++ stem ++ ".png".toList

/-- The `for mmd_file in mmd_files` loop of `batch_convert` (lines
319-327): count the successes, threading the converter state through the
calls, and collect the written files. -/
def batch_loop (envOf : MmdFile → ConvEnv) (out_dir : PyStr) :
    MermaidConverter → List MmdFile → Nat × MermaidConverter × List PyStr
  | c, [] => (0, c, [])
  | c, f :: fs =>
      let r := convert_file c (envOf f) (.contents f.content) (png_path out_dir f.stem)
      let rest := batch_loop envOf out_dir r.conv fs
      ((if r.ok then 1 else 0) + rest.1, rest.2.1, r.written ++ rest.2.2)

/-- Lines 289-330, `MermaidConverter.batch_convert`: `dir = none` models a
missing input directory (lines 303-305, result (0,0)); otherwise `dir`
holds the files of the `*.mmd` glob (an empty glob returns (0,0) at lines
315-317, which coincides with the loop on the empty list).  Reading each
globbed file is assumed to succeed (the files exist; contents are modelled
as character lists, so no decode errors).  Returns ((successful, total),
converter state after, files written). -/
def batch_convert (c : MermaidConverter) (envOf : MmdFile → ConvEnv)
    (out_dir : PyStr) (dir : Option (List MmdFile)) :
    (Nat × Nat) × MermaidConverter × List PyStr :=
  match dir with
  | none => ((0, 0), c, [])
  | some files =>
      let r := batch_loop envOf out_dir c files
      ((r.1, files.length), r.2.1, r.2.2)

/-- The argparse namespace of `main` (lines 493-500). -/
structure Args where
  file : Option PyStr
  output : Option PyStr
  directory : Option PyStr
  output_directory : Option PyStr
  text : Option PyStr
  config : Option PyStr
  sample : Bool
  check : Bool

/-- `pathlib.Path.with_suffix(".png")` as used at line 277: drop the final
dot-extension of the name, if any, and append `.png`.  (The real method
looks only at the final path component and ignores a leading dot; the
single-file default path is not load-bearing for any claim, so this keeps
the name-level behaviour only.) -/
def with_suffix_png (p : PyStr) : PyStr :=
  (match p.reverse.dropWhile (· ≠ '.') with
   | [] => p
   | _ :: rest => rest.reverse)
  ++ ".png".toList

/-- The per-run environment of `main`: the discovery environments used by
the constructor at line 504, whether the line-508 config load raises, the
`--help` outcome for `--check`, the conversion environment for the text
and file modes, the state of the `--file` input, and the directory
contents and per-file environments for the batch mode. -/
structure MainEnv where
  cand : Candidate → CandEnv
  config_fails : Bool
  help : HelpOutcome
  conv : ConvEnv
  input_file : InputFile
  dir : Option (List MmdFile)
  envOf : MmdFile → ConvEnv

/-- Lines 478-547, `main`: construct the converter (line 504), fail with 1
when a requested config file does not load (lines 508-514), then dispatch:
`--check` returns 0 iff `_check_dependencies` succeeds (lines 517-522),
`--sample` returns 0 (lines 524-526), `--text` and `--file` return 0 iff
the conversion returned True (lines 528-539), `--directory` returns 0 iff
`batch_convert` reports successful == total (lines 541-543), and with no
operation the help text is printed and 1 returned (lines 545-547).  The
Python dispatch tests truthiness of the argparse values; absent arguments
are None, so presence (`isSome`) models the dispatch (an explicitly empty
string argument is not modelled). -/
def main_with (args : Args) (env : MainEnv) : Nat :=
  if args.config.isSome && env.config_fails then 1
  else if args.check then
    if (_check_dependencies (MermaidConverter.init env.cand).1 env.help).1
    then 0 else 1
  else if args.sample then 0
  else if args.text.isSome then
    if (convert_mermaid_text (MermaidConverter.init env.cand).1 env.conv
          (args.text.getD []) (args.output.getD "output.png".toList)).ok
    then 0 else 1
  else if args.file.isSome then
    if (convert_file (MermaidConverter.init env.cand).1 env.conv env.input_file
          (args.output.getD (with_suffix_png (args.file.getD [])))).ok
    then 0 else 1
  else
    match args.directory with
    | some d =>
        if (batch_convert (MermaidConverter.init env.cand).1 env.envOf
              (args.output_directory.getD d) env.dir).1.1
            = (batch_convert (MermaidConverter.init env.cand).1 env.envOf
                (args.output_directory.getD d) env.dir).1.2
        then 0 else 1
    | none => 1

/-- src/web_app.py line 85 context: the ASCII restriction werkzeug applies
by NFKD-normalising and encoding to ASCII with errors ignored (modelled
here as dropping the non-ASCII characters). -/
def ascii_only (s : PyStr) : PyStr := s.filter fun c => c.toNat < 128

/-- werkzeug `secure_filename`: path separators become spaces. -/
def sep_to_space (s : PyStr) : PyStr :=
  s.map fun c => if c = '/' || c = '\\' then ' ' else c

/-- Python `str.split()` with no argument: split on runs of whitespace,
dropping the empty pieces.  The accumulator holds the current word in
reverse. -/
def py_split_ws_aux : PyStr → PyStr → List PyStr
  | [], acc => if acc.isEmpty then [] else [acc.reverse]
  | c :: cs, acc =>
      if isPySpace c then
        (if acc.isEmpty then [] else [acc.reverse]) ++ py_split_ws_aux cs []
      else py_split_ws_aux cs (c :: acc)

/-- Python `str.split()` with no argument. -/
def py_split_ws (s : PyStr) : List PyStr := py_split_ws_aux s []

/-- The character class `[A-Za-z0-9_.-]` kept by the werkzeug strip
regular expression. -/
def keep_char (c : Char) : Bool :=
  c.isAlphanum || c = '_' || c = '.' || c = '-'

/-- Python `s.strip("._")`. -/
def strip_dot_underscore (s : PyStr) : PyStr :=
  ((s.dropWhile fun c => c = '.' || c = '_').reverse.dropWhile
      fun c => c = '.' || c = '_').reverse

/-- werkzeug `secure_filename` as called at src/web_app.py line 85:
restrict to ASCII, turn path separators into spaces, join the whitespace
split with underscores, delete every character outside `[A-Za-z0-9_.-]`,
and strip leading and trailing dots and underscores.  (The Windows
reserved-device-name branch only runs on `os.name == "nt"` and is not
modelled.) -/
def secure_filename (filename : PyStr) : PyStr :=
  strip_dot_underscore
    ((List.intercalate [ '_' ]
        (py_split_ws (sep_to_space (ascii_only filename)))).filter keep_char)

/-- src/web_app.py lines 85-91: the filename placed in the success
response of POST /api/convert.  `provided` is the optional caller-supplied
`filename` field; absent it defaults to `"diagram.png"` (line 85), the
value is sanitised, and `.png` is appended when the sanitised name does
not already end with it (lines 87-88).  Lines 105-110 return exactly this
value in the `filename` field of the success payload. -/
def api_convert_filename (provided : Option PyStr) : PyStr :=
  let filename := secure_filename (provided.getD "diagram.png".toList)
  if ".png".toList.isSuffixOf filename then filename
  else filename ++ ".png".toList

/-- A discovery environment in which every candidate before npx fails its
version query with an exception, `npm list` reports the package as
installed, and the trial conversion would fail (its run raises, so
`_test_mermaid_cli_with_conversion` returns False). -/
def c1_env : Candidate → CandEnv := fun c =>
  match c with
  | .npx_pkg =>
      { js_file_exists := false, version := .raises,
        npm_list := .completes false true, conv_run := .raises }
  | _ =>
      { js_file_exists := false, version := .raises,
        npm_list := .raises, conv_run := .raises }

/-- A discovery environment in which only the global `mmdc` command works:
its version query and trial conversion both succeed, everything else
fails. -/
def c1_wit_env : Candidate → CandEnv := fun c =>
  match c with
  | .global_mmdc =>
      { js_file_exists := false, version := .completes true true,
        npm_list := .raises, conv_run := .completes true true }
  | _ =>
      { js_file_exists := false, version := .raises,
        npm_list := .raises, conv_run := .raises }

/-- A discovery environment where every probe fails: discovery returns
None and the converter starts in demo mode. -/
def demo_all_env : Candidate → CandEnv := fun _ =>
  { js_file_exists := false, version := .raises,
    npm_list := .raises, conv_run := .raises }

/-- A conversion environment with a working imaging library (the external
run outcomes are irrelevant in demo mode). -/
def conv_ok_env : ConvEnv :=
  { help := .timeout, run := .timeout, pil := .ok }

/-- One sample batch item. -/
def sample_file : MmdFile :=
  { stem := "sample".toList, content := "graph TD; A-->B".toList }

/-- A second sample batch item, with a distinct stem. -/
def sample_file2 : MmdFile :=
  { stem := "flow".toList, content := "graph LR; X-->Y".toList }

/-- Concrete batch-mode arguments for the exit-code witness. -/
def c5_args : Args :=
  { file := none, output := none, directory := some "diagrams".toList,
    output_directory := none, text := none, config := none,
    sample := false, check := false }

/-- Concrete run environment for the exit-code witness: no CLI found, one
directory entry, placeholder rendering works. -/
def c5_env : MainEnv :=
  { cand := demo_all_env, config_fails := false, help := .timeout,
    conv := conv_ok_env, input_file := .absent,
    dir := some [sample_file], envOf := fun _ => conv_ok_env }

/-- The code-snippet loop, run from any starting index, draws exactly the
non-empty lines of its input, truncated to 50 characters. -/
theorem snippet_enumFrom (l : List PyStr) :
    ∀ n : Nat,
      ((List.enumFrom n l).filterMap fun p =>
          if !(pyStrip p.2).isEmpty then
            some ({ x := 100, y := 450 + 20 + (p.1 : Int) * 15,
                    text := p.2.take 50 } : TextDraw)
          else none).map TextDraw.text
        = (l.filter fun s => !(pyStrip s).isEmpty).map fun s => s.take 50 := by
  induction l with
  | nil => intro n; rfl
  | cons hd tl ih =>
      intro n
      by_cases hhd : pyStrip hd = []
      · simpa [List.enumFrom, List.filterMap_cons, hhd, List.filter_cons]
          using ih (n + 1)
      · simpa [List.enumFrom, List.filterMap_cons, hhd, List.filter_cons]
          using ih (n + 1)

/-- C3 counterexample: on an input whose first five lines are all empty,
the sixth line `A-->B` is among the first non-empty lines of the input but
is not rendered anywhere in the placeholder image. -/
theorem C3_counterexample :
    "A-->B".toList ∈ spec_first_nonempty_lines "\n\n\n\n\nA-->B".toList ∧
    "A-->B".toList ∉
      (demo_text_draws "\n\n\n\n\nA-->B".toList).map TextDraw.text := by
  decide

/-- C3 amended: the placeholder image renders, as its code snippet,
exactly the non-empty lines among the first five lines of the input, each
truncated to 50 characters (not the first five non-empty lines of the
whole input). -/
theorem C3_snippet_is_first_five_lines_filtered (code : PyStr) :
    drawn_code_lines code =
      (((split_nl code).take 5).filter fun l => !(pyStrip l).isEmpty).map
        fun l => l.take 50 := by
  unfold drawn_code_lines code_snippet_draws
  rw [List.enum_eq_enumFrom]
  exact snippet_enumFrom ((split_nl code).take 5) 0

/-- C4 counterexample: when the trial conversion raises (for example a
timeout), the probe returns False with the temporary input file still in
existence — the cleanup block is skipped because it is not a `finally`. -/
theorem C4_counterexample :
    (_test_mermaid_cli_with_conversion TestRun.raises).1 = false ∧
    (_test_mermaid_cli_with_conversion TestRun.raises).2.input_exists = true := by
  decide

/-- C4 amended: when the trial run completes (with any exit code and
whether or not it produced the output file) neither temporary file exists
on return and the verdict is the exit-code test; but when the run raises,
the temporary input file still exists on return. -/
theorem C4_cleanup_only_on_completion (rc_zero creates_output : Bool) :
    (_test_mermaid_cli_with_conversion (TestRun.completes rc_zero creates_output)).2
        = { input_exists := false, output_exists := false } ∧
    (_test_mermaid_cli_with_conversion (TestRun.completes rc_zero creates_output)).1
        = rc_zero ∧
    (_test_mermaid_cli_with_conversion TestRun.raises).2.input_exists = true := by
  cases rc_zero <;> cases creates_output <;> decide

/-- C9 counterexample: with the imaging library importable but a drawing
or saving operation raising (for example an output path in a missing
directory), `_create_demo_image` returns False and writes nothing — a
second failure mode beyond PIL being unavailable, and one that yields the
same plain False as an ordinary conversion failure. -/
theorem C9_counterexample :
    PilEnv.raises ≠ PilEnv.unavailable ∧
    _create_demo_image PilEnv.raises "graph TD; A-->B".toList
        "missing_dir/out.png".toList = (false, none) := by
  decide

/-- C9 amended: the placeholder renderer returns True and writes the image
exactly when the imaging library is importable and every drawing and
saving operation succeeds; when the import fails or an operation raises it
returns the same bare False either way, indistinguishable from an
ordinary conversion failure (the two failure cases differ only in the
printed log text). -/
theorem C9_demo_image_success_iff (pil : PilEnv) (code path : PyStr) :
    ((_create_demo_image pil code path).1 = true ↔ pil = PilEnv.ok) ∧
    ((_create_demo_image pil code path).2 ≠ none ↔ pil = PilEnv.ok) ∧
    _create_demo_image PilEnv.unavailable code path
      = _create_demo_image PilEnv.raises code path := by
  cases pil <;> simp [_create_demo_image]

/-- An accepted version-then-conversion check pins down its environment:
the version query completed with returncode 0 and non-empty stdout, and
the trial conversion reported success. -/
theorem direct_probe_sound {e : CandEnv} (h : direct_probe e = true) :
    e.version = RunOutcome.completes true true ∧
    (_test_mermaid_cli_with_conversion e.conv_run).1 = true := by
  unfold direct_probe at h
  cases hv : e.version with
  | raises => rw [hv] at h; cases h
  | completes rc out =>
      rw [hv] at h
      cases rc <;> cases out <;> simp_all

/-- A candidate returned by the discovery loop passed its own probe. -/
theorem find_aux_sound (envs : Candidate → CandEnv) :
    ∀ (l : List Candidate) (c : Candidate), find_aux envs l = some c →
      probe_step c (envs c) = true := by
  intro l
  induction l with
  | nil => intro c h; cases h
  | cons hd tl ih =>
      intro c h
      rw [find_aux] at h
      by_cases hp : probe_step hd (envs hd) = true
      · rw [if_pos hp] at h
        cases h
        exact hp
      · rw [if_neg hp] at h
        exact ih c h

/-- C1 counterexample: in an environment where every candidate before npx
fails its version query, `npm list` lists the package, and the trial
conversion would fail, `_find_mermaid_cli` nevertheless returns the npx
candidate — it is accepted on the package-listing check alone, with no
trivial conversion ever exiting zero. -/
theorem C1_counterexample :
    _find_mermaid_cli c1_env = some Candidate.npx_pkg ∧
    (_test_mermaid_cli_with_conversion (c1_env Candidate.npx_pkg).conv_run).1
      = false := by
  decide

/-- C1 amended: a candidate other than the npx package-runner is returned
only if its version query exits zero with non-empty stdout AND the trivial
conversion of `_test_mermaid_cli_with_conversion` reports success (and,
for the node invocation, cli.js exists); the npx candidate, however, is
returned as soon as the `npm list` output contains the package name,
without any conversion test. -/
theorem C1_acceptance_conditions (envs : Candidate → CandEnv) (c : Candidate)
    (h : _find_mermaid_cli envs = some c) :
    (c = Candidate.npx_pkg ∧
       ∃ rc, (envs c).npm_list = RunOutcome.completes rc true) ∨
    (c ≠ Candidate.npx_pkg ∧
       (envs c).version = RunOutcome.completes true true ∧
       (_test_mermaid_cli_with_conversion (envs c).conv_run).1 = true ∧
       (c = Candidate.node_cli → (envs c).js_file_exists = true)) := by
  have hp := find_aux_sound envs possible_paths c h
  cases c with
  | npx_pkg =>
      left
      refine ⟨rfl, ?_⟩
      simp only [probe_step] at hp
      cases hn : (envs Candidate.npx_pkg).npm_list with
      | raises => rw [hn] at hp; simp at hp
      | completes rc has_pkg =>
          rw [hn] at hp
          simp at hp
          exact ⟨rc, by rw [hp]⟩
  | node_cli =>
      right
      simp only [probe_step] at hp
      cases hj : (envs Candidate.node_cli).js_file_exists with
      | false => rw [hj] at hp; simp at hp
      | true =>
          rw [hj] at hp
          simp only [Bool.not_true, Bool.false_eq_true, if_false] at hp
          obtain ⟨h1, h2⟩ := direct_probe_sound hp
          exact ⟨by simp, h1, h2, fun _ => rfl⟩
  | local_cmd =>
      right
      obtain ⟨h1, h2⟩ := direct_probe_sound hp
      exact ⟨by simp, h1, h2, by simp⟩
  | local_bin =>
      right
      obtain ⟨h1, h2⟩ := direct_probe_sound hp
      exact ⟨by simp, h1, h2, by simp⟩
  | local_ps1 =>
      right
      obtain ⟨h1, h2⟩ := direct_probe_sound hp
      exact ⟨by simp, h1, h2, by simp⟩
  | global_mmdc =>
      right
      obtain ⟨h1, h2⟩ := direct_probe_sound hp
      exact ⟨by simp, h1, h2, by simp⟩

/-- Witness for C1 amended: in the environment where only the global
`mmdc` works, discovery returns it and the acceptance conditions hold. -/
theorem C1_acceptance_conditions_witness :
    (Candidate.global_mmdc = Candidate.npx_pkg ∧
       ∃ rc, (c1_wit_env Candidate.global_mmdc).npm_list
               = RunOutcome.completes rc true) ∨
    (Candidate.global_mmdc ≠ Candidate.npx_pkg ∧
       (c1_wit_env Candidate.global_mmdc).version = RunOutcome.completes true true ∧
       (_test_mermaid_cli_with_conversion
           (c1_wit_env Candidate.global_mmdc).conv_run).1 = true ∧
       (Candidate.global_mmdc = Candidate.node_cli →
          (c1_wit_env Candidate.global_mmdc).js_file_exists = true)) :=
  C1_acceptance_conditions c1_wit_env Candidate.global_mmdc (by decide)

/-- C2: whenever the external conversion fails in any way — demo mode (no
active candidate), failed dependency check, non-zero exit, timeout, raised
exception, or zero exit with the output file absent — `convert_mermaid_text`
returns no exception (the embedding is a total function whose every branch
is a return) but instead calls `_create_demo_image` on the same source
text and output path and returns its result. -/
theorem C2_fallback_on_failure (c : MermaidConverter) (env : ConvEnv)
    (code path : PyStr) (h : external_failure c env = true) :
    (convert_mermaid_text c env code path).ok
      = (_create_demo_image env.pil code path).1 ∧
    Event.demoRender code path ∈ (convert_mermaid_text c env code path).events := by
  unfold external_failure at h
  unfold convert_mermaid_text
  by_cases hd : c.demo_mode = true
  · simp [hd]
  · simp only [hd, Bool.false_or, Bool.or_eq_true, ne_eq] at h
    replace hd : c.demo_mode = false := by
      cases hdm : c.demo_mode
      · rfl
      · exact absurd hdm hd
    by_cases hdep : (_check_dependencies c env.help).1 = true
    · simp only [hdep, Bool.not_true, Bool.false_eq_true, false_or] at h
      cases hr : env.run with
      | completes rc_zero output_exists =>
          rw [hr] at h
          simp at h
          have hrc : (rc_zero && output_exists) = false := by
            cases rc_zero with
            | false => rfl
            | true =>
                rcases h with h | h
                · cases h
                · simp [h]
          simp [hd, hdep, hr, hrc]
      | timeout => simp [hd, hdep, hr]
      | raises => simp [hd, hdep, hr]
    · replace hdep : (_check_dependencies c env.help).1 = false := by
        cases hdm : (_check_dependencies c env.help).1
        · rfl
        · exact absurd hdm hdep
      simp [hd, hdep]

/-- Witness for C2: a demo-mode converter falls back to the placeholder
renderer on the given source text and output path. -/
theorem C2_fallback_on_failure_witness :
    (convert_mermaid_text { mermaid_cli := none, demo_mode := true }
        { help := HelpOutcome.timeout, run := CliRun.timeout, pil := PilEnv.ok }
        "graph TD; A-->B".toList "out.png".toList).ok
      = (_create_demo_image PilEnv.ok "graph TD; A-->B".toList
          "out.png".toList).1 ∧
    Event.demoRender "graph TD; A-->B".toList "out.png".toList ∈
      (convert_mermaid_text { mermaid_cli := none, demo_mode := true }
        { help := HelpOutcome.timeout, run := CliRun.timeout, pil := PilEnv.ok }
        "graph TD; A-->B".toList "out.png".toList).events :=
  C2_fallback_on_failure _ _ _ _ (by decide)

/-- Every branch of `convert_mermaid_text` leaves the converter state
untouched and records no discovery event. -/
theorem convert_mermaid_text_state (c : MermaidConverter) (env : ConvEnv)
    (code path : PyStr) :
    (convert_mermaid_text c env code path).conv = c ∧
    Event.discover ∉ (convert_mermaid_text c env code path).events := by
  rcases c with ⟨cli, demo⟩
  rcases env with ⟨help, run, pil⟩
  cases cli <;> cases help <;> cases run <;> cases demo <;>
    simp only [convert_mermaid_text, _check_dependencies] <;>
    (repeat' split) <;> exact ⟨rfl, by simp⟩

/-- `convert_file` likewise leaves the converter state untouched and
records no discovery event. -/
theorem convert_file_state (c : MermaidConverter) (env : ConvEnv)
    (input : InputFile) (path : PyStr) :
    (convert_file c env input path).conv = c ∧
    Event.discover ∉ (convert_file c env input path).events := by
  cases input with
  | absent => simp [convert_file]
  | unreadable => simp [convert_file]
  | contents s => exact convert_mermaid_text_state c env s path

/-- The batch loop returns the converter it was given. -/
theorem batch_loop_state (envOf : MmdFile → ConvEnv) (out_dir : PyStr) :
    ∀ (files : List MmdFile) (c : MermaidConverter),
      (batch_loop envOf out_dir c files).2.1 = c := by
  intro files
  induction files with
  | nil => intro c; rfl
  | cons f fs ih =>
      intro c
      show (batch_loop envOf out_dir
        (convert_file c (envOf f) (.contents f.content)
          (png_path out_dir f.stem)).conv fs).2.1 = c
      rw [(convert_file_state c (envOf f) (.contents f.content)
        (png_path out_dir f.stem)).1]
      exact ih c

/-- The batch loop counts exactly the per-file successes against the
unchanged converter, and writes exactly the per-file writes. -/
theorem batch_loop_spec (envOf : MmdFile → ConvEnv) (out_dir : PyStr) :
    ∀ (files : List MmdFile) (c : MermaidConverter),
      (batch_loop envOf out_dir c files).1
        = files.countP (fun f =>
            (convert_file c (envOf f) (InputFile.contents f.content)
              (png_path out_dir f.stem)).ok) ∧
      (batch_loop envOf out_dir c files).2.2
        = files.flatMap (fun f =>
            (convert_file c (envOf f) (InputFile.contents f.content)
              (png_path out_dir f.stem)).written) := by
  intro files
  induction files with
  | nil => intro c; exact ⟨rfl, rfl⟩
  | cons f fs ih =>
      intro c
      have hc := (convert_file_state c (envOf f) (.contents f.content)
        (png_path out_dir f.stem)).1
      obtain ⟨h1, h2⟩ := ih c
      constructor
      · show (if (convert_file c (envOf f) (.contents f.content)
                (png_path out_dir f.stem)).ok then 1 else 0)
            + (batch_loop envOf out_dir
                (convert_file c (envOf f) (.contents f.content)
                  (png_path out_dir f.stem)).conv fs).1 = _
        rw [hc, h1, List.countP_cons]
        cases hok : (convert_file c (envOf f) (.contents f.content)
          (png_path out_dir f.stem)).ok <;> simp [hok, Nat.add_comm]
      · show (convert_file c (envOf f) (.contents f.content)
            (png_path out_dir f.stem)).written
            ++ (batch_loop envOf out_dir
                (convert_file c (envOf f) (.contents f.content)
                  (png_path out_dir f.stem)).conv fs).2.2 = _
        rw [hc, h2, List.flatMap_cons]

/-- C7: discovery runs exactly once, at construction — `init` stores its
result in `mermaid_cli`, sets `demo_mode` iff it is None, and records the
single discovery event — and none of `convert_mermaid_text`,
`convert_file`, `batch_convert` or `_check_dependencies` changes the
converter fields or performs another discovery. -/
theorem C7_discovery_once_fields_fixed :
    (∀ envs : Candidate → CandEnv,
       (MermaidConverter.init envs).1.mermaid_cli = _find_mermaid_cli envs ∧
       (MermaidConverter.init envs).1.demo_mode
         = ((MermaidConverter.init envs).1.mermaid_cli).isNone ∧
       (MermaidConverter.init envs).2 = [Event.discover]) ∧
    (∀ (c : MermaidConverter) (env : ConvEnv) (code path : PyStr),
       (convert_mermaid_text c env code path).conv = c ∧
       Event.discover ∉ (convert_mermaid_text c env code path).events) ∧
    (∀ (c : MermaidConverter) (env : ConvEnv) (input : InputFile) (path : PyStr),
       (convert_file c env input path).conv = c ∧
       Event.discover ∉ (convert_file c env input path).events) ∧
    (∀ (c : MermaidConverter) (envOf : MmdFile → ConvEnv) (out_dir : PyStr)
       (dir : Option (List MmdFile)),
       (batch_convert c envOf out_dir dir).2.1 = c) ∧
    (∀ (c : MermaidConverter) (help : HelpOutcome),
       (_check_dependencies c help).2.1 = c ∧
       Event.discover ∉ (_check_dependencies c help).2.2) := by
  refine ⟨fun envs => ⟨rfl, rfl, rfl⟩,
    convert_mermaid_text_state,
    convert_file_state,
    fun c envOf out_dir dir => ?_,
    fun c help => ?_⟩
  · cases dir with
    | none => rfl
    | some files => exact batch_loop_state envOf out_dir files c
  · rcases c with ⟨cli, demo⟩
    cases cli <;> cases help <;> simp [_check_dependencies]

/-- C8: a `convert_file` call whose input path does not exist returns
False at once, leaves the converter untouched, performs no conversion
attempt and no placeholder call (no events), and writes no file. -/
theorem C8_missing_input (c : MermaidConverter) (env : ConvEnv) (path : PyStr) :
    convert_file c env InputFile.absent path
      = { ok := false, conv := c, events := [], written := [] } := rfl

/-- `main_with` never returns anything but 0 or 1. -/
theorem main_with_mem (args : Args) (env : MainEnv) :
    main_with args env = 0 ∨ main_with args env = 1 := by
  unfold main_with
  (repeat' split) <;> first | exact Or.inl rfl | exact Or.inr rfl

/-- C5: the CLI entry point returns only the exit codes 0 and 1, and in
directory batch mode it returns 0 exactly when every enumerated .mmd file
converted successfully — equivalently, 1 whenever `batch_convert` reports
successful different from total, so partial success is overall failure. -/
theorem C5_exit_code_policy :
    (∀ (args : Args) (env : MainEnv),
        main_with args env = 0 ∨ main_with args env = 1) ∧
    (∀ (args : Args) (env : MainEnv) (d : PyStr),
        args.config = none → args.check = false → args.sample = false →
        args.text = none → args.file = none → args.directory = some d →
        ((main_with args env = 0 ↔
            (batch_convert (MermaidConverter.init env.cand).1 env.envOf
                (args.output_directory.getD d) env.dir).1.1
              = (batch_convert (MermaidConverter.init env.cand).1 env.envOf
                  (args.output_directory.getD d) env.dir).1.2) ∧
         (main_with args env = 0 ↔
            ∀ f ∈ env.dir.getD [],
              (convert_file (MermaidConverter.init env.cand).1 (env.envOf f)
                (InputFile.contents f.content)
                (png_path (args.output_directory.getD d) f.stem)).ok = true))) := by
  refine ⟨main_with_mem, fun args env d hcfg hchk hsmp htxt hfil hdir => ?_⟩
  have hmain : main_with args env
      = if (batch_convert (MermaidConverter.init env.cand).1 env.envOf
              (args.output_directory.getD d) env.dir).1.1
           = (batch_convert (MermaidConverter.init env.cand).1 env.envOf
               (args.output_directory.getD d) env.dir).1.2 then 0 else 1 := by
    unfold main_with
    rw [hcfg, hchk, hsmp, htxt, hfil, hdir]
    simp
  constructor
  · rw [hmain]
    constructor
    · intro h
      by_contra hne
      rw [if_neg hne] at h
      cases h
    · intro h
      rw [if_pos h]
  · rw [hmain]
    cases hd : env.dir with
    | none => simp [batch_convert]
    | some files =>
        have h1 := (batch_loop_spec env.envOf (args.output_directory.getD d)
          files (MermaidConverter.init env.cand).1).1
        constructor
        · intro h
          by_cases hne : (batch_convert (MermaidConverter.init env.cand).1
              env.envOf (args.output_directory.getD d) (some files)).1.1
              = (batch_convert (MermaidConverter.init env.cand).1 env.envOf
                  (args.output_directory.getD d) (some files)).1.2
          · have : files.countP (fun f =>
                (convert_file (MermaidConverter.init env.cand).1 (env.envOf f)
                  (InputFile.contents f.content)
                  (png_path (args.output_directory.getD d) f.stem)).ok)
                = files.length := by
              rw [← h1]
              exact hne
            simpa using List.countP_eq_length.mp this
          · rw [if_neg hne] at h
            cases h
        · intro h
          have : (batch_convert (MermaidConverter.init env.cand).1 env.envOf
              (args.output_directory.getD d) (some files)).1.1
              = (batch_convert (MermaidConverter.init env.cand).1 env.envOf
                  (args.output_directory.getD d) (some files)).1.2 := by
            show (batch_loop env.envOf (args.output_directory.getD d)
              (MermaidConverter.init env.cand).1 files).1 = files.length
            rw [h1]
            exact List.countP_eq_length.mpr (by simpa using h)
          rw [if_pos this]

/-- Witness for C5: with no CLI found and one directory entry rendered by
the placeholder, the batch branch exit code is 0 exactly when that entry
converted, and the hypotheses of the policy theorem hold at these concrete
arguments. -/
theorem C5_exit_code_policy_witness :
    (main_with c5_args c5_env = 0 ↔
        ∀ f ∈ c5_env.dir.getD [],
          (convert_file (MermaidConverter.init c5_env.cand).1 (c5_env.envOf f)
            (InputFile.contents f.content)
            (png_path (c5_args.output_directory.getD "diagrams".toList)
              f.stem)).ok = true) :=
  (C5_exit_code_policy.2 c5_args c5_env "diagrams".toList
    rfl rfl rfl rfl rfl rfl).2

/-- In demo mode with a working imaging library, a file conversion
succeeds and writes exactly its output path. -/
theorem convert_file_demo (c : MermaidConverter) (env : ConvEnv)
    (s path : PyStr) (hdemo : c.demo_mode = true) (hpil : env.pil = PilEnv.ok) :
    (convert_file c env (InputFile.contents s) path).ok = true ∧
    (convert_file c env (InputFile.contents s) path).written = [path] := by
  simp [convert_file, convert_mermaid_text, hdemo, hpil, _create_demo_image]

/-- A flatMap whose function yields singletons is the corresponding map. -/
theorem flatMap_singleton_eq_map {α β : Type} (g : α → List β) (h : α → β) :
    ∀ l : List α, (∀ a ∈ l, g a = [h a]) → l.flatMap g = l.map h := by
  intro l
  induction l with
  | nil => intro _; rfl
  | cons x xs ih =>
      intro hall
      rw [List.flatMap_cons, hall x (by simp), List.map_cons,
        ih fun a ha => hall a (by simp [ha])]
      rfl

/-- Distinct stems give distinct batch output paths. -/
theorem png_path_injective (out_dir : PyStr) :
    Function.Injective (png_path out_dir) := by
  intro a b h
  unfold png_path at h
  exact List.append_cancel_left (List.append_cancel_right h)

/-- C6: in demo mode (no external tool) with the imaging library working
for every entry, batch conversion over N enumerated files returns (N, N)
and writes exactly the N output image paths, one per file, all distinct
(the stems of the files of one directory are distinct). -/
theorem C6_demo_batch_all_succeed (c : MermaidConverter)
    (envOf : MmdFile → ConvEnv) (out_dir : PyStr) (files : List MmdFile)
    (hdemo : c.demo_mode = true)
    (hpil : ∀ f ∈ files, (envOf f).pil = PilEnv.ok)
    (hnd : (files.map MmdFile.stem).Nodup) :
    (batch_convert c envOf out_dir (some files)).1
      = (files.length, files.length) ∧
    (batch_convert c envOf out_dir (some files)).2.2
      = files.map (fun f => png_path out_dir f.stem) ∧
    (batch_convert c envOf out_dir (some files)).2.2.length = files.length ∧
    (batch_convert c envOf out_dir (some files)).2.2.Nodup := by
  obtain ⟨h1, h2⟩ := batch_loop_spec envOf out_dir files c
  have hok : ∀ f ∈ files,
      (convert_file c (envOf f) (InputFile.contents f.content)
        (png_path out_dir f.stem)).ok = true :=
    fun f hf => (convert_file_demo c (envOf f) f.content
      (png_path out_dir f.stem) hdemo (hpil f hf)).1
  have hwritten : (batch_convert c envOf out_dir (some files)).2.2
      = files.map (fun f => png_path out_dir f.stem) := by
    show (batch_loop envOf out_dir c files).2.2 = _
    rw [h2]
    exact flatMap_singleton_eq_map _ _ files fun f hf =>
      (convert_file_demo c (envOf f) f.content
        (png_path out_dir f.stem) hdemo (hpil f hf)).2
  refine ⟨?_, hwritten, ?_, ?_⟩
  · show ((batch_loop envOf out_dir c files).1, files.length) = _
    rw [h1, List.countP_eq_length.mpr (by simpa using hok)]
  · rw [hwritten, List.length_map]
  · rw [hwritten, show files.map (fun f => png_path out_dir f.stem)
      = (files.map MmdFile.stem).map (png_path out_dir) by rw [List.map_map]; rfl]
    exact hnd.map (png_path_injective out_dir)

/-- Witness for C6: a demo-mode converter over two files with distinct
stems returns (2, 2) and writes the two distinct output paths. -/
theorem C6_demo_batch_all_succeed_witness :
    (batch_convert { mermaid_cli := none, demo_mode := true }
        (fun _ => conv_ok_env) "out".toList
        (some [sample_file, sample_file2])).1 = (2, 2) ∧
    (batch_convert { mermaid_cli := none, demo_mode := true }
        (fun _ => conv_ok_env) "out".toList
        (some [sample_file, sample_file2])).2.2
      = [sample_file, sample_file2].map
          (fun f => png_path "out".toList f.stem) ∧
    (batch_convert { mermaid_cli := none, demo_mode := true }
        (fun _ => conv_ok_env) "out".toList
        (some [sample_file, sample_file2])).2.2.length = 2 ∧
    (batch_convert { mermaid_cli := none, demo_mode := true }
        (fun _ => conv_ok_env) "out".toList
        (some [sample_file, sample_file2])).2.2.Nodup :=
  C6_demo_batch_all_succeed { mermaid_cli := none, demo_mode := true }
    (fun _ => conv_ok_env) "out".toList [sample_file, sample_file2]
    rfl (by decide) (by decide)

/-- C10: the filename returned by a successful POST /api/convert always
ends with ".png" — when the sanitised caller-supplied name does not end
with it, ".png" is appended — and an absent filename field yields the
default "diagram.png". -/
theorem C10_api_filename_ends_png (provided : Option PyStr) :
    ".png".toList <:+ api_convert_filename provided ∧
    api_convert_filename none = "diagram.png".toList := by
  constructor
  · simp only [api_convert_filename]
    split
    · rename_i h
      exact List.isSuffixOf_iff_suffix.mp h
    · exact List.suffix_append _ _
  · decide

end MermaidToPng
